import Mathlib

/-!
Shallow embedding of the `wbuf` crate (src/lib.rs): three tagged-union buffer
types `Input`, `Output`, `InputOutput` over the backends standard stream,
in-memory cursor, and file, together with the platform primitives the crate
calls into (`std::io::Cursor<Vec<u8>>` reads/writes and
`std::fs::OpenOptions::open`).

Bytes are modelled as `Nat` (the code only moves bytes around, it never
computes with them), byte buffers as `List Nat`.  The mutable state of the
process (the filesystem, the data pending on standard input, the data already
written to standard output) is threaded explicitly as a `World` value; every
operation returns its result together with the updated state.
-/

/-- Platform I/O error kinds that the modelled operations can surface. -/
inductive IOError where
  | notFound
  | permissionDenied
  | invalidInput
deriving DecidableEq, Repr

/-- One file of the modelled filesystem: its byte contents and whether the
current process may open it for reading resp. writing. -/
structure FileEntry where
  contents : List Nat
  readable : Bool
  writable : Bool
deriving DecidableEq, Repr

/-- The filesystem: a finite map from paths to files, as an association list
(first binding for a path wins). -/
def FileSystem := List (String × FileEntry)
deriving DecidableEq, Repr

/-- Look a path up in the filesystem. -/
def FileSystem.lookup (fs : FileSystem) (p : String) : Option FileEntry :=
  List.lookup p fs

/-- Replace the contents of the file at `p` (if present), keeping its
permission bits. -/
def FileSystem.setContents (fs : FileSystem) (p : String) (bs : List Nat) : FileSystem :=
  fs.map fun e => if e.1 = p then (e.1, { e.2 with contents := bs }) else e

/-- Model of `std::io::Cursor<Vec<u8>>`: a growable byte vector plus a
cursor position shared by reads and writes. -/
structure Cursor where
  data : List Nat
  pos : Nat
deriving DecidableEq, Repr

/-- Model of `Read for Cursor<Vec<u8>>`: copy
`min (dest.length) (remaining)` bytes from the data at the cursor position
into the front of `dest`, advance the position by that count, and return
(count, updated destination buffer, updated cursor).  Reading never fails. -/
def Cursor.readBuf (c : Cursor) (dest : List Nat) : Nat × List Nat × Cursor :=
  let out := (c.data.drop c.pos).take dest.length
  (out.length, out ++ dest.drop out.length, { c with pos := c.pos + out.length })

/-- Model of `Write for Cursor<Vec<u8>>` (`vec_write`): zero-pad the vector
up to the cursor position if the position is past the end, overwrite from the
position on (extending the vector as needed), accept the whole input, and
advance the position by its length. -/
def Cursor.write (c : Cursor) (buf : List Nat) : Nat × Cursor :=
  let padded := c.data ++ List.replicate (c.pos - c.data.length) 0
  ( buf.length
  , { data := padded.take c.pos ++ buf ++ padded.drop (c.pos + buf.length)
    , pos := c.pos + buf.length } )

/-- Model of `std::fs::OpenOptions`: the option flags the crate sets before
calling `open`.  All flags default to `false`, as in `OpenOptions::new()`. -/
structure OpenOptions where
  read : Bool := false
  write : Bool := false
  create : Bool := false
  truncate : Bool := false
deriving DecidableEq, Repr

/-- An open file handle: the path it was opened at, the current cursor
position, and the access modes it was opened with. -/
structure FileHandle where
  path : String
  pos : Nat
  canRead : Bool
  canWrite : Bool
deriving DecidableEq, Repr

/-- Model of `OpenOptions::open` on a Unix-like platform:
an empty path never names a file (ENOENT); `create`/`truncate` require write
access (`InvalidInput`); opening an existing file checks the requested modes
against its permissions, and truncates its contents exactly when `truncate`
is set; opening a missing path creates an empty read-write file when `create`
and `write` are both set and fails with not-found otherwise.  Returns the
handle (positioned at 0) and the possibly updated filesystem. -/
def OpenOptions.openFile (o : OpenOptions) (fs : FileSystem) (p : String) :
    Except IOError (FileHandle × FileSystem) :=
  if p = "" then .error .notFound
  else if (o.create || o.truncate) && !o.write then .error .invalidInput
  else
    match fs.lookup p with
    | some e =>
      if (o.read && !e.readable) || (o.write && !e.writable) then
        .error .permissionDenied
      else
        .ok ( { path := p, pos := 0, canRead := o.read, canWrite := o.write }
            , if o.truncate then fs.setContents p [] else fs )
    | none =>
      if o.create && o.write then
        .ok ( { path := p, pos := 0, canRead := o.read, canWrite := o.write }
            , (p, { contents := [], readable := true, writable := true }) :: fs )
      else .error .notFound

/-- Model of `Read for fs::File`: fails unless the handle was opened
readable, otherwise reads from the file contents at the handle's position
exactly like a cursor read. -/
def FileHandle.readBuf (f : FileHandle) (fs : FileSystem) (dest : List Nat) :
    Except IOError Nat × List Nat × FileHandle :=
  if !f.canRead then (.error .permissionDenied, dest, f)
  else
    match fs.lookup f.path with
    | none => (.error .notFound, dest, f)
    | some e =>
      let out := (e.contents.drop f.pos).take dest.length
      (.ok out.length, out ++ dest.drop out.length, { f with pos := f.pos + out.length })

/-- Model of `Write for fs::File`: fails unless the handle was opened
writable, otherwise overwrites the file contents at the handle's position
(zero-padding a gap, extending at the end) and advances the position. -/
def FileHandle.write (f : FileHandle) (fs : FileSystem) (buf : List Nat) :
    Except IOError Nat × FileHandle × FileSystem :=
  if !f.canWrite then (.error .permissionDenied, f, fs)
  else
    match fs.lookup f.path with
    | none => (.error .notFound, f, fs)
    | some e =>
      let padded := e.contents ++ List.replicate (f.pos - e.contents.length) 0
      let newContents := padded.take f.pos ++ buf ++ padded.drop (f.pos + buf.length)
      (.ok buf.length, { f with pos := f.pos + buf.length }, fs.setContents f.path newContents)

/-- The process-external state every operation threads: the filesystem, the
bytes still pending on standard input, and the bytes written so far to
standard output. -/
structure World where
  fs : FileSystem
  stdinData : List Nat
  stdoutData : List Nat
deriving DecidableEq, Repr

/-- `Input` from src/lib.rs: wraps stdin, a memory cursor, or a readable
file handle.  The stdin handle itself is stateless (the pending bytes live
in the `World`). -/
inductive Input where
  | Standard
  | Memory (c : Cursor)
  | File (f : FileHandle)
deriving DecidableEq, Repr

/-- `Output` from src/lib.rs: wraps stdout, a memory cursor, or a writable
file handle. -/
inductive Output where
  | Standard
  | Memory (c : Cursor)
  | File (f : FileHandle)
deriving DecidableEq, Repr

/-- `InputOutput` from src/lib.rs: wraps the stdin/stdout pair, a read-write
memory cursor, or a read-write file handle. -/
inductive InputOutput where
  | Standard
  | Memory (c : Cursor)
  | File (f : FileHandle)
deriving DecidableEq, Repr

/-- Which backend an `Input` is bound to. -/
inductive BackendTag where
  | standard
  | memory
  | file
deriving DecidableEq, Repr

def Input.tag : Input → BackendTag
  | .Standard => .standard
  | .Memory _ => .memory
  | .File _ => .file

def Output.tag : Output → BackendTag
  | .Standard => .standard
  | .Memory _ => .memory
  | .File _ => .file

def InputOutput.tag : InputOutput → BackendTag
  | .Standard => .standard
  | .Memory _ => .memory
  | .File _ => .file

/-- `Input::stdin()`. -/
def Input.stdin : Input := Input.Standard

/-- `Input::memory()`: an empty cursor at position 0. -/
def Input.memory : Input := Input.Memory { data := [], pos := 0 }

/-- `Input::file(path)`: `OpenOptions::new().read(true).open(path)`. -/
def Input.file (fs : FileSystem) (p : String) : Except IOError (Input × FileSystem) :=
  (OpenOptions.openFile { read := true } fs p).map fun r => (Input.File r.1, r.2)

/-- `Input::from_arg`: `None | Some("-")` select stdin, anything else is
treated as a file path (the source's literal pattern `Some("-")` is compiled
to the equality test on the string). -/
def Input.from_arg (fs : FileSystem) (arg : Option String) :
    Except IOError (Input × FileSystem) :=
  match arg with
  | none => .ok (Input.stdin, fs)
  | some fname => if fname = "-" then .ok (Input.stdin, fs) else Input.file fs fname

/-- `Output::stdout()`. -/
def Output.stdout : Output := Output.Standard

/-- `Output::memory()`: an empty cursor at position 0. -/
def Output.memory : Output := Output.Memory { data := [], pos := 0 }

/-- `Output::file(path)`:
`OpenOptions::new().write(true).create(true).open(path)` — note that the
source does not set `truncate`. -/
def Output.file (fs : FileSystem) (p : String) : Except IOError (Output × FileSystem) :=
  (OpenOptions.openFile { write := true, create := true } fs p).map
    fun r => (Output.File r.1, r.2)

/-- `Output::from_arg`: same selection rule as `Input::from_arg`. -/
def Output.from_arg (fs : FileSystem) (arg : Option String) :
    Except IOError (Output × FileSystem) :=
  match arg with
  | none => .ok (Output.stdout, fs)
  | some fname => if fname = "-" then .ok (Output.stdout, fs) else Output.file fs fname

/-- `InputOutput::stdio()`: the stdin/stdout pair (both handles stateless,
their state lives in the `World`). -/
def InputOutput.stdio : InputOutput := InputOutput.Standard

/-- `InputOutput::memory()`: an empty cursor at position 0, shared by reads
and writes. -/
def InputOutput.memory : InputOutput := InputOutput.Memory { data := [], pos := 0 }

/-- `InputOutput::file(path)`:
`OpenOptions::new().read(true).write(true).open(path)` — no `create`. -/
def InputOutput.file (fs : FileSystem) (p : String) :
    Except IOError (InputOutput × FileSystem) :=
  (OpenOptions.openFile { read := true, write := true } fs p).map
    fun r => (InputOutput.File r.1, r.2)

/-- `InputOutput::from_arg`: same selection rule as the other two types. -/
def InputOutput.from_arg (fs : FileSystem) (arg : Option String) :
    Except IOError (InputOutput × FileSystem) :=
  match arg with
  | none => .ok ( InputOutput.stdio, fs)
  | some path =>
    if path = "-" then .ok ( InputOutput.stdio, fs) else InputOutput.file fs path

/-- Outcome of a read: the returned count (or error), the destination buffer
after the call, the buffer value after the call, and the world after the
call. -/
structure ReadOut (σ : Type) where
  result : Except IOError Nat
  dest : List Nat
  state : σ
  world : World
deriving Repr

/-- Outcome of a write: the accepted count (or error), the buffer value
after the call, and the world after the call. -/
structure WriteOut (σ : Type) where
  result : Except IOError Nat
  state : σ
  world : World
deriving Repr

/-- Outcome of a flush. -/
structure FlushOut (σ : Type) where
  result : Except IOError Unit
  state : σ
  world : World
deriving Repr

/-- `impl Read for Input`: dispatch to the active variant.  Stdin hands out
the pending bytes of the world (up to the destination's capacity). -/
def Input.read (i : Input) (w : World) (dest : List Nat) : ReadOut Input :=
  match i with
  | .Standard =>
    let out := w.stdinData.take dest.length
    { result := .ok out.length
    , dest := out ++ dest.drop out.length
    , state := .Standard
    , world := { w with stdinData := w.stdinData.drop out.length } }
  | .Memory c =>
    let r := c.readBuf dest
    { result := .ok r.1, dest := r.2.1, state := .Memory r.2.2, world := w }
  | .File f =>
    let r := f.readBuf w.fs dest
    { result := r.1, dest := r.2.1, state := .File r.2.2, world := w }

/-- `impl Write for Output`: dispatch to the active variant.  Stdout appends
to the world's stdout transcript and accepts everything. -/
def Output.write (o : Output) (w : World) (buf : List Nat) : WriteOut Output :=
  match o with
  | .Standard =>
    { result := .ok buf.length
    , state := .Standard
    , world := { w with stdoutData := w.stdoutData ++ buf } }
  | .Memory c =>
    let r := c.write buf
    { result := .ok r.1, state := .Memory r.2, world := w }
  | .File f =>
    let r := f.write w.fs buf
    { result := r.1, state := .File r.2.1, world := { w with fs := r.2.2 } }

/-- `Output::flush`: dispatch to the active variant's native flush; each of
stdout, the memory cursor and the file flush succeeds without visible
effect in this model. -/
def Output.flush (o : Output) (w : World) : FlushOut Output :=
  match o with
  | .Standard => { result := .ok (), state := .Standard, world := w }
  | .Memory c => { result := .ok (), state := .Memory c, world := w }
  | .File f => { result := .ok (), state := .File f, world := w }

/-- `impl Read for InputOutput`: Standard routes to the held stdin handle,
Memory and File to their shared cursor. -/
def InputOutput.read (d : InputOutput) (w : World) (dest : List Nat) :
    ReadOut InputOutput :=
  match d with
  | .Standard =>
    let out := w.stdinData.take dest.length
    { result := .ok out.length
    , dest := out ++ dest.drop out.length
    , state := .Standard
    , world := { w with stdinData := w.stdinData.drop out.length } }
  | .Memory c =>
    let r := c.readBuf dest
    { result := .ok r.1, dest := r.2.1, state := .Memory r.2.2, world := w }
  | .File f =>
    let r := f.readBuf w.fs dest
    { result := r.1, dest := r.2.1, state := .File r.2.2, world := w }

/-- `impl Write for InputOutput`: Standard routes to the held stdout handle,
Memory and File to the same cursor reads use. -/
def InputOutput.write (d : InputOutput) (w : World) (buf : List Nat) :
    WriteOut InputOutput :=
  match d with
  | .Standard =>
    { result := .ok buf.length
    , state := .Standard
    , world := { w with stdoutData := w.stdoutData ++ buf } }
  | .Memory c =>
    let r := c.write buf
    { result := .ok r.1, state := .Memory r.2, world := w }
  | .File f =>
    let r := f.write w.fs buf
    { result := r.1, state := .File r.2.1, world := { w with fs := r.2.2 } }

/-- `InputOutput::flush`: dispatch, as in `Output::flush`. -/
def InputOutput.flush (d : InputOutput) (w : World) : FlushOut InputOutput :=
  match d with
  | .Standard => { result := .ok (), state := .Standard, world := w }
  | .Memory c => { result := .ok (), state := .Memory c, world := w }
  | .File f => { result := .ok (), state := .File f, world := w }

/-! ## Claim theorems -/

/-- C1: for each of the three types, `from_arg(None)` and `from_arg(Some("-"))`
return the Standard variant and succeed without touching the filesystem, while
`from_arg(Some(s))` for any `s` other than `"-"` is exactly the type's file
constructor applied to `s`, so its error is propagated unchanged. -/
theorem from_arg_selection_rule (fs : FileSystem) (s : String) (hs : s ≠ "-") :
    Input.from_arg fs none = .ok (Input.Standard, fs) ∧
    Input.from_arg fs (some "-") = .ok (Input.Standard, fs) ∧
    Input.from_arg fs (some s) = Input.file fs s ∧
    Output.from_arg fs none = .ok (Output.Standard, fs) ∧
    Output.from_arg fs (some "-") = .ok (Output.Standard, fs) ∧
    Output.from_arg fs (some s) = Output.file fs s ∧
    InputOutput.from_arg fs none = .ok (InputOutput.Standard, fs) ∧
    InputOutput.from_arg fs (some "-") = .ok (InputOutput.Standard, fs) ∧
    InputOutput.from_arg fs (some s) = InputOutput.file fs s := by
  refine ⟨rfl, ?_, ?_, rfl, ?_, ?_, rfl, ?_, ?_⟩ <;>
    simp [Input.from_arg, Output.from_arg, InputOutput.from_arg, hs,
      Input.stdin, Output.stdout, InputOutput.stdio]

/-- C1 witness: the selection rule at the concrete argument "sample.txt". -/
theorem from_arg_selection_rule_holds :
    Input.from_arg [] (some "sample.txt") = Input.file [] "sample.txt" ∧
    Output.from_arg [] (some "sample.txt") = Output.file [] "sample.txt" ∧
    InputOutput.from_arg [] (some "sample.txt") = InputOutput.file [] "sample.txt" := by
  have h := from_arg_selection_rule [] "sample.txt" (by decide)
  exact ⟨h.2.2.1, h.2.2.2.2.2.1, h.2.2.2.2.2.2.2.2⟩

/-- C2 counterexample: `Output::file` on an already existing file whose
contents are `[7, 7]` succeeds but leaves the contents `[7, 7]` — the open
does not truncate, because the source sets `write` and `create` but not
`truncate` on the `OpenOptions`. -/
theorem output_file_existing_not_truncated :
    Output.file [("log.txt", { contents := [7, 7], readable := true, writable := true })]
        "log.txt"
      = .ok ( Output.File { path := "log.txt", pos := 0, canRead := false, canWrite := true }
            , [("log.txt", { contents := [7, 7], readable := true, writable := true })] ) ∧
    ([7, 7] : List Nat) ≠ [] :=
  ⟨rfl, by decide⟩

/-- C2 amended: `Output::file(path)` opens `path` for writing, creating an
empty file when the path is absent; when the file already exists (and is
writable) the call succeeds with the handle positioned at the start, and the
filesystem — in particular the file's previous contents — is left exactly as
it was: the open does not truncate, so a second call on the same existing
path succeeds without truncating. -/
theorem output_file_create_or_open_no_truncate (fs : FileSystem) (p : String) :
    (p ≠ "" → fs.lookup p = none →
      Output.file fs p
        = .ok ( Output.File { path := p, pos := 0, canRead := false, canWrite := true }
              , (p, { contents := [], readable := true, writable := true }) :: fs)) ∧
    (∀ e, p ≠ "" → fs.lookup p = some e → e.writable = true →
      Output.file fs p
        = .ok ( Output.File { path := p, pos := 0, canRead := false, canWrite := true }
              , fs)) := by
  constructor
  · intro hp h
    simp [Output.file, OpenOptions.openFile, hp, h, Except.map]
  · intro e hp he hw
    simp [Output.file, OpenOptions.openFile, hp, he, hw, Except.map]

/-- C2 amended, witnessed: creating a missing file and re-opening an
existing one, both succeeding, the second preserving the contents `[9]`. -/
theorem output_file_create_or_open_no_truncate_holds :
    Output.file [] "new.txt"
      = .ok ( Output.File { path := "new.txt", pos := 0, canRead := false, canWrite := true }
            , [("new.txt", { contents := [], readable := true, writable := true })]) ∧
    Output.file [("old.txt", { contents := [9], readable := true, writable := true })]
        "old.txt"
      = .ok ( Output.File { path := "old.txt", pos := 0, canRead := false, canWrite := true }
            , [("old.txt", { contents := [9], readable := true, writable := true })]) := by
  refine ⟨(output_file_create_or_open_no_truncate [] "new.txt").1 (by decide) rfl, ?_⟩
  exact (output_file_create_or_open_no_truncate _ "old.txt").2
    { contents := [9], readable := true, writable := true } (by decide) (by decide) rfl

/-- C3: `InputOutput::file(path)` never creates a file: on any path missing
from the filesystem (the empty path included) it fails with the platform's
not-found error, and on an existing file that is not both readable and
writable it fails with a permission error. -/
theorem inputoutput_file_requires_existing_rw (fs : FileSystem) (p : String) :
    (fs.lookup p = none → InputOutput.file fs p = .error .notFound) ∧
    (∀ e, p ≠ "" → fs.lookup p = some e → (e.readable = false ∨ e.writable = false) →
      InputOutput.file fs p = .error .permissionDenied) := by
  constructor
  · intro h
    by_cases hp : p = ""
    · subst hp
      simp [InputOutput.file, OpenOptions.openFile, Except.map]
    · simp [InputOutput.file, OpenOptions.openFile, hp, h, Except.map]
  · intro e hp he hperm
    rcases hperm with h1 | h1 <;>
      simp [InputOutput.file, OpenOptions.openFile, hp, he, h1, Except.map]

/-- C3 witness: a missing path fails with not-found; an existing read-only
file fails with permission-denied. -/
theorem inputoutput_file_requires_existing_rw_holds :
    InputOutput.file [] "data.bin" = .error .notFound ∧
    InputOutput.file [("ro.bin", { contents := [1], readable := true, writable := false })]
        "ro.bin" = .error .permissionDenied := by
  refine ⟨(inputoutput_file_requires_existing_rw [] "data.bin").1 rfl, ?_⟩
  exact (inputoutput_file_requires_existing_rw _ "ro.bin").2
    { contents := [1], readable := true, writable := false } (by decide) (by decide)
    (Or.inr rfl)

/-- C4: an `InputOutput` bound to Memory shares one cursor between reads and
writes: writing `[1, 2, 3]` into a fresh memory duplex buffer succeeds with
count 3 and leaves the cursor at position 3, and an immediately subsequent
read from that state returns `Ok(0)` bytes, leaving the destination buffer
untouched. -/
theorem duplex_memory_shared_cursor (w : World) (dest : List Nat) :
    (InputOutput.write ( InputOutput.memory) w [1, 2, 3]).result = .ok 3 ∧
    (InputOutput.write ( InputOutput.memory) w [1, 2, 3]).state
      = InputOutput.Memory { data := [1, 2, 3], pos := 3 } ∧
    (InputOutput.read (InputOutput.Memory { data := [1, 2, 3], pos := 3 }) w dest).result
      = .ok 0 ∧
    (InputOutput.read (InputOutput.Memory { data := [1, 2, 3], pos := 3 }) w dest).dest
      = dest := by
  refine ⟨rfl, ?_, ?_, ?_⟩ <;>
    simp [InputOutput.write, InputOutput.read, InputOutput.memory,
      Cursor.write, Cursor.readBuf]

/-- C5: round trip through memory buffers — writing any byte list `bs` into
a fresh Memory `Output` stores exactly `bs` (accepting all of it), and a
Memory `Input` whose cursor is pre-loaded with `bs` at position 0, read into
a destination of capacity `bs.length`, yields exactly `bs`, in order. -/
theorem memory_write_read_round_trip (w : World) (bs : List Nat) :
    Output.write (Output.memory) w bs
      = { result := .ok bs.length
        , state := Output.Memory { data := bs, pos := bs.length }
        , world := w } ∧
    Input.read (Input.Memory { data := bs, pos := 0 }) w (List.replicate bs.length 0)
      = { result := .ok bs.length
        , dest := bs
        , state := Input.Memory { data := bs, pos := bs.length }
        , world := w } := by
  constructor
  · simp [Output.write, Output.memory, Cursor.write]
  · simp [Input.read, Cursor.readBuf]

/-- C6: flushing a Memory-variant `Output` or `InputOutput` always succeeds
and changes neither the buffer state nor the world. -/
theorem memory_flush_noop (c : Cursor) (w : World) :
    Output.flush (Output.Memory c) w
      = { result := .ok (), state := Output.Memory c, world := w } ∧
    InputOutput.flush (InputOutput.Memory c) w
      = { result := .ok (), state := InputOutput.Memory c, world := w } :=
  ⟨rfl, rfl⟩

/-- C7: a read on a Memory-variant `Input` always succeeds and returns the
minimum of the destination capacity and the bytes remaining past the cursor:
the count never exceeds the capacity; when fewer bytes remain than the
capacity the count is exactly the remaining count, and in that case the
count is 0 exactly when the remaining data is empty (end of stream). -/
theorem memory_read_count_bounds (c : Cursor) (w : World) (dest : List Nat) :
    (Input.read (Input.Memory c) w dest).result
      = .ok (min dest.length (c.data.drop c.pos).length) ∧
    min dest.length (c.data.drop c.pos).length ≤ dest.length ∧
    ((c.data.drop c.pos).length < dest.length →
      (Input.read (Input.Memory c) w dest).result = .ok (c.data.drop c.pos).length) ∧
    ((c.data.drop c.pos).length < dest.length →
      ((Input.read (Input.Memory c) w dest).result = .ok 0 ↔ c.data.drop c.pos = [])) := by
  have key : (Input.read (Input.Memory c) w dest).result
      = .ok (min dest.length (c.data.drop c.pos).length) := by
    simp [Input.read, Cursor.readBuf, List.length_take]
  refine ⟨key, Nat.min_le_left _ _, ?_, ?_⟩
  · intro h
    rw [key, Nat.min_eq_right (Nat.le_of_lt h)]
  · intro h
    rw [key, Nat.min_eq_right (Nat.le_of_lt h)]
    simp [List.length_eq_zero]
    omega

/-- C7 witness: reading a two-byte memory buffer into a three-byte
destination returns exactly the two available bytes. -/
theorem memory_read_count_bounds_example :
    (Input.read (Input.Memory { data := [5, 6], pos := 0 })
        { fs := [], stdinData := [], stdoutData := [] } [0, 0, 0]).result = .ok 2 := by
  have h := memory_read_count_bounds { data := [5, 6], pos := 0 }
    { fs := [], stdinData := [], stdoutData := [] } [0, 0, 0]
  exact h.2.2.1 (by decide)

/-- C8: the active variant is fixed at construction — `read`, `write` and
`flush` on any `Input`, `Output` or `InputOutput` return a state bound to
the same backend (Standard, Memory or File) as before the call. -/
theorem variant_fixed_for_lifetime (i : Input) (o : Output) (d : InputOutput)
    (w : World) (dest buf : List Nat) :
    (Input.read i w dest).state.tag = i.tag ∧
    (Output.write o w buf).state.tag = o.tag ∧
    (Output.flush o w).state.tag = o.tag ∧
    (InputOutput.read d w dest).state.tag = d.tag ∧
    (InputOutput.write d w buf).state.tag = d.tag ∧
    (InputOutput.flush d w).state.tag = d.tag := by
  refine ⟨?_, ?_, ?_, ?_, ?_, ?_⟩
  · cases i <;> rfl
  · cases o <;> rfl
  · cases o <;> rfl
  · cases d <;> rfl
  · cases d <;> rfl
  · cases d <;> rfl

/-- C9: for all three types, `from_arg(Some(""))` does not select the
Standard variant — the empty string falls into the file branch, each
`from_arg` call being exactly the file constructor applied to `""`, and that
constructor fails (in this platform model, with the not-found error an empty
path produces). -/
theorem from_arg_empty_string_is_file (fs : FileSystem) :
    Input.from_arg fs (some "") = Input.file fs "" ∧
    Input.file fs "" = .error .notFound ∧
    Output.from_arg fs (some "") = Output.file fs "" ∧
    Output.file fs "" = .error .notFound ∧
    InputOutput.from_arg fs (some "") = InputOutput.file fs "" ∧
    InputOutput.file fs "" = .error .notFound := by
  refine ⟨?_, ?_, ?_, ?_, ?_, ?_⟩ <;>
    simp [Input.from_arg, Output.from_arg, InputOutput.from_arg,
      Input.file, Output.file, InputOutput.file, OpenOptions.openFile, Except.map]

/-- C10: reading from a freshly constructed `Input::memory()` (empty cursor
at offset 0) returns `Ok(0)` for a destination buffer of any capacity, and
leaves the destination buffer, the buffer state and the world unchanged. -/
theorem fresh_memory_read_returns_zero (w : World) (dest : List Nat) :
    Input.read ( Input.memory) w dest
      = { result := .ok 0, dest := dest, state := Input.memory, world := w } := by
  simp [Input.read, Input.memory, Cursor.readBuf]
